import Mathlib

/-!
Verification of the IPPcode23 interpreter (interpret.py) against its
natural-language specification.

The development shallowly embeds the interpreter: Python values become the
inductive type PyVal, the singleton Memory object becomes an explicit record
threaded through every operation, sys.exit and uncaught Python exceptions
become the two constructors of Fault, and each instruction class becomes a
function from its argument list and the machine state to an Except result.
Line references in comments point into src/interpret.py.
-/

set_option linter.unusedVariables false

namespace Interp

/-! ## Error codes (interpret.py lines 9-18) -/

def INVALID_XML_ERROR_CODE : Nat := 31
def WRONG_XML_STRUCTURE_ERROR_CODE : Nat := 32
def SEMANTIC_ERROR_CODE : Nat := 52
def WRONG_OPERAND_TYPE_ERROR_CODE : Nat := 53
def UNDEFINED_VARIABLE_ERROR_CODE : Nat := 54
def NON_EXISTING_FRAME_ERROR_CODE : Nat := 55
def MISSING_VALUE_ERROR_CODE : Nat := 56
def WRONG_OPERAND_VALUE_ERROR_CODE : Nat := 57
def STRING_OPERATION_ERROR_CODE : Nat := 58

/-! ## Check flags (lines 20-31) -/

def VALUE_TYPE_INT_CHECK : Nat := 0x1
def VALUE_TYPE_BOOL_CHECK : Nat := 0x2
def VALUE_TYPE_STRING_CHECK : Nat := 0x4
def VALUE_TYPE_NIL_CHECK : Nat := 0x8
def VALUE_TYPE_NOT_NIL_CHECK : Nat := 0x10
def VALUE_TYPE_SAME_CHECK : Nat := 0x20

def VARIABLE_DEFINED_CHECK : Nat := 0x1
def VARIABLE_NULL_CHECK : Nat := 0x2
def VARIABLE_CORRECT_FRAME_CHECK : Nat := 0x4

/-! ## Outcomes

The interpreter terminates either through sys.exit(code) (modelled as
Fault.exited) or through an uncaught Python exception, which aborts the
process with a traceback and OS status 1 (modelled as Fault.crash, kept
distinct from every sys.exit code). -/

inductive Fault where
  | exited (code : Nat)
  | crash (msg : String)
deriving DecidableEq, Repr

/-! ## Python values

Values stored in frames and on the data stack are Python objects: int, bool,
str, or None.  A freshly DEFVARed variable is stored as None (line 861), and
the nil literal also resolves to None (line 203), so the two are one and the
same object in memory. -/

inductive PyVal where
  | vint (n : Int)
  | vbool (b : Bool)
  | vstr (s : String)
  | vnone
deriving DecidableEq, Repr

/-- Python type tag, used for the type(x) is type(y) comparisons. -/
def pyTag : PyVal → Nat
  | .vint _ => 0
  | .vbool _ => 1
  | .vstr _ => 2
  | .vnone => 3

def PyVal.is_int : PyVal → Bool
  | .vint _ => true
  | _ => false

def PyVal.is_bool : PyVal → Bool
  | .vbool _ => true
  | _ => false

def PyVal.is_str : PyVal → Bool
  | .vstr _ => true
  | _ => false

/-- Python equality on the values that occur in the machine
(int, bool, str, None); True equals 1 and False equals 0. -/
def pyEq : PyVal → PyVal → Bool
  | .vint a, .vint b => a = b
  | .vbool a, .vbool b => a = b
  | .vint a, .vbool b => a = (if b then 1 else 0)
  | .vbool a, .vint b => (if a then (1 : Int) else 0) = b
  | .vstr a, .vstr b => a = b
  | .vnone, .vnone => true
  | _, _ => false

/-- Python strict comparison on ints, bools and strings; comparing other
combinations raises TypeError. -/
def pyLt : PyVal → PyVal → Except Fault Bool
  | .vint a, .vint b => .ok (a < b)
  | .vbool a, .vbool b => .ok ((if a then (1 : Int) else 0) < (if b then 1 else 0))
  | .vint a, .vbool b => .ok (a < (if b then 1 else 0))
  | .vbool a, .vint b => .ok ((if a then (1 : Int) else 0) < b)
  | .vstr a, .vstr b => .ok (decide (a < b))
  | _, _ => .error (.crash "TypeError: unorderable types")

def pyGt : PyVal → PyVal → Except Fault Bool
  | .vint a, .vint b => .ok (b < a)
  | .vbool a, .vbool b => .ok ((if b then (1 : Int) else 0) < (if a then 1 else 0))
  | .vint a, .vbool b => .ok ((if b then (1 : Int) else 0) < a)
  | .vbool a, .vint b => .ok (b < (if a then (1 : Int) else 0))
  | .vstr a, .vstr b => .ok (decide (b < a))
  | _, _ => .error (.crash "TypeError: unorderable types")

/-! ## Python int() parsing (ASCII fragment)

Python int(str) strips surrounding whitespace, accepts an optional sign and
a non-empty digit run in which single underscores may separate digits.
(Non-ASCII decimal digits, which CPython also accepts, never occur in the
programs considered here.)  A failed parse raises ValueError. -/

def isPySpace (c : Char) : Bool :=
  c = ' ' || c = '\t' || c = '\n' || c = '\x0d' || c = '\x0b' || c = '\x0c'

def pyDigitsAux : List Char → Nat → Option Nat
  | [], acc => some acc
  | '_' :: c :: rest, acc =>
      if c.isDigit then pyDigitsAux rest (acc * 10 + (c.toNat - 48)) else none
  | ['_'], _ => none
  | c :: rest, acc =>
      if c.isDigit then pyDigitsAux rest (acc * 10 + (c.toNat - 48)) else none

/-- Digit run: must start with a digit; underscores only between digits. -/
def pyDigits (cs : List Char) : Option Nat :=
  match cs with
  | [] => none
  | c :: rest =>
      if c.isDigit then pyDigitsAux rest (c.toNat - 48) else none

def pyIntParse (s : String) : Option Int :=
  let cs := ((s.toList.dropWhile isPySpace).reverse.dropWhile isPySpace).reverse
  match cs with
  | '+' :: rest => (pyDigits rest).map (fun n => (n : Int))
  | '-' :: rest => (pyDigits rest).map (fun n => -(n : Int))
  | rest => (pyDigits rest).map (fun n => (n : Int))

/-- int() applied to an optional attribute; int(None) raises TypeError,
also a parse failure.  Used by checkXML. -/
def pyIntOfAttr : Option String → Option Int
  | none => none
  | some s => pyIntParse s

/-! ## Helpers.replace_special_chars (lines 39-51)

re.sub of a backslash followed by exactly three decimal digits with the
character of that code point. -/

def replaceSpecialAux : List Char → List Char
  | '\\' :: d1 :: d2 :: d3 :: rest =>
      if d1.isDigit && d2.isDigit && d3.isDigit then
        Char.ofNat ((d1.toNat - 48) * 100 + (d2.toNat - 48) * 10 + (d3.toNat - 48))
          :: replaceSpecialAux rest
      else
        '\\' :: replaceSpecialAux (d1 :: d2 :: d3 :: rest)
  | c :: rest => c :: replaceSpecialAux rest
  | [] => []

def replace_special_chars (input_str : String) : String :=
  String.mk (replaceSpecialAux input_str.toList)

/-- str() of an int as Python prints it: decimal digits, minus sign if
negative. -/
def pyIntRepr (n : Int) : String := toString n

/-! ## Helpers.process_output (lines 53-67)

Note the source line 62 tests type(arg) is None, comparing the class
NoneType with None; that test is False for every argument, so a None value
falls through to the final branch and is rendered by str(None) = "None". -/

def process_output : PyVal → String
  | .vbool b => if b then "true" else "false"
  | .vstr s => replace_special_chars s
  | .vint n => pyIntRepr n
  | .vnone => "None"

/-! ## Frames

A frame is a Python dict from variable name to stored value, in insertion
order.  frame_set models in-place dict assignment: updating an existing key
keeps its position, a new key is appended. -/

abbrev Frame := List (String × PyVal)

def frame_lookup : Frame → String → Option PyVal
  | [], _ => none
  | (k, v) :: rest, n => if k = n then some v else frame_lookup rest n

def frame_contains (f : Frame) (n : String) : Bool :=
  (frame_lookup f n).isSome

def frame_set : Frame → String → PyVal → Frame
  | [], n, v => [(n, v)]
  | (k, w) :: rest, n, v =>
      if k = n then (k, v) :: rest else (k, w) :: frame_set rest n v

/-! ## Memory (lines 794-928)

The Python Memory singleton.  _local_frame always equals the top of
_frame_stack (push_frame_stack and pop_frame_stack maintain the alias and
set_local_frame is never called), so the local frame is modelled as the head
of frame_stack rather than a separate field. -/

structure Memory where
  stack : List PyVal
  call_stack : List Nat
  frame_stack : List Frame
  global_frame : Frame
  temporary_frame : Option Frame
  program_counter : Nat
  labels : List (PyVal × Nat)
deriving DecidableEq, Repr

def initMemory : Memory :=
  { stack := [], call_stack := [], frame_stack := [], global_frame := [],
    temporary_frame := none, program_counter := 0, labels := [] }

/-- get_frame (lines 795-804, 846-847): unknown frame names raise an
uncaught Exception; LF is the top of the frame stack (None when empty),
TF may be None. -/
def Memory.get_frame (m : Memory) (frame_name : String) : Except Fault (Option Frame) :=
  if frame_name = "GF" then .ok (some m.global_frame)
  else if frame_name = "LF" then .ok m.frame_stack.head?
  else if frame_name = "TF" then .ok m.temporary_frame
  else .error (.crash "Exception: Unknown frame name")

/-- Write a frame back where get_frame found it; models Python dict
mutation through the reference returned by get_frame.  Only used after
get_frame returned an allocated frame. -/
def Memory.set_frame (m : Memory) (frame_name : String) (f : Frame) : Memory :=
  if frame_name = "GF" then { m with global_frame := f }
  else if frame_name = "LF" then { m with frame_stack := f :: m.frame_stack.tail }
  else if frame_name = "TF" then { m with temporary_frame := some f }
  else m

/-- create_variable (lines 854-861): duplicate definition exits 52; a fresh
variable is stored as None.  Operating on an unallocated frame would raise
TypeError (membership test on None). -/
def Memory.create_variable (m : Memory) (frame_name variable_name : String) :
    Except Fault Memory :=
  match m.get_frame frame_name with
  | .error f => .error f
  | .ok none => .error (.crash "TypeError: argument of type NoneType is not iterable")
  | .ok (some fr) =>
      if frame_contains fr variable_name then
        .error (.exited SEMANTIC_ERROR_CODE)
      else
        .ok (m.set_frame frame_name (frame_set fr variable_name .vnone))

/-- update_variable (lines 872-879): assignment to an undefined variable
exits 54. -/
def Memory.update_variable (m : Memory) (frame_name variable_name : String)
    (value : PyVal) : Except Fault Memory :=
  match m.get_frame frame_name with
  | .error f => .error f
  | .ok none => .error (.crash "TypeError: argument of type NoneType is not iterable")
  | .ok (some fr) =>
      if frame_contains fr variable_name then
        .ok (m.set_frame frame_name (frame_set fr variable_name value))
      else
        .error (.exited UNDEFINED_VARIABLE_ERROR_CODE)

/-- Label dictionary lookup; dict membership uses Python equality on keys. -/
def labels_lookup : List (PyVal × Nat) → PyVal → Option Nat
  | [], _ => none
  | (k, o) :: rest, n => if pyEq k n then some o else labels_lookup rest n

/-- create_label (lines 881-886): re-defining a label exits 52.  The label
is recorded only when this method runs, i.e. when a LABEL instruction is
executed. -/
def Memory.create_label (m : Memory) (label_name : PyVal) (label_order : Nat) :
    Except Fault Memory :=
  match labels_lookup m.labels label_name with
  | some _ => .error (.exited SEMANTIC_ERROR_CODE)
  | none => .ok { m with labels := m.labels ++ [(label_name, label_order)] }

/-- get_label (lines 888-893): unknown label exits 52. -/
def Memory.get_label (m : Memory) (label_name : PyVal) : Except Fault Nat :=
  match labels_lookup m.labels label_name with
  | some o => .ok o
  | none => .error (.exited SEMANTIC_ERROR_CODE)

/-! ## Machine state

Memory plus the input line stream consumed by input() and the bytes written
to standard output. -/

structure VMState where
  mem : Memory
  stdin : List String
  stdout : String
deriving DecidableEq, Repr

def initState (stdin : List String) : VMState :=
  { mem := initMemory, stdin := stdin, stdout := "" }

/-! ## Arguments (lines 159-239)

Each subclass of Argument stores the raw XML text; get_value converts it on
demand.  The base class gives every non-variable argument empty frame and
name strings (line 164). -/

inductive Argument where
  | intArg (value : String)
  | boolArg (value : String)
  | strArg (value : String)
  | nilArg (value : String)
  | labelArg (value : String)
  | typeArg (value : String)
  | varArg (frame name : String)
deriving DecidableEq, Repr

def Argument.is_variable : Argument → Bool
  | .varArg _ _ => true
  | _ => false

def Argument.get_frame : Argument → String
  | .varArg f _ => f
  | _ => ""

def Argument.get_name : Argument → String
  | .varArg _ n => n
  | _ => ""

/-- VariableArgument.get_value (lines 228-239): unallocated frame exits 55,
undefined variable exits 54, and a stored None (an Unset variable or a
variable holding nil) is replaced by the empty string. -/
def var_get_value (m : Memory) (frame name : String) : Except Fault PyVal :=
  match m.get_frame frame with
  | .error f => .error f
  | .ok none => .error (.exited NON_EXISTING_FRAME_ERROR_CODE)
  | .ok (some fr) =>
      match frame_lookup fr name with
      | none => .error (.exited UNDEFINED_VARIABLE_ERROR_CODE)
      | some v => .ok (if v = .vnone then .vstr "" else v)

/-- get_value per argument class (lines 183-239).  int(value) on a
malformed literal raises ValueError. -/
def Argument.get_value (s : VMState) : Argument → Except Fault PyVal
  | .intArg v =>
      match pyIntParse v with
      | some n => .ok (.vint n)
      | none => .error (.crash "ValueError: invalid literal for int with base 10")
  | .boolArg v => .ok (.vbool (v = "true"))
  | .strArg v => .ok (.vstr v)
  | .nilArg _ => .ok .vnone
  | .labelArg v => .ok (.vstr v)
  | .typeArg v => .ok (.vstr v)
  | .varArg f n => var_get_value s.mem f n

/-- Python list indexing self.arguments[i]; out of range raises
IndexError. -/
def argAt (args : List Argument) (i : Nat) : Except Fault Argument :=
  match args.get? i with
  | some a => .ok a
  | none => .error (.crash "IndexError: list index out of range")

/-! ## value_check / values_check / variable_check (lines 242-314) -/

/-- value_check (lines 242-271). -/
def value_check (value : PyVal) (check : Nat) : Except Fault Unit :=
  if check &&& VALUE_TYPE_INT_CHECK ≠ 0 && !value.is_int then
    .error (.exited WRONG_OPERAND_TYPE_ERROR_CODE)
  else if check &&& VALUE_TYPE_BOOL_CHECK ≠ 0 && !value.is_bool then
    .error (.exited WRONG_OPERAND_TYPE_ERROR_CODE)
  else if check &&& VALUE_TYPE_STRING_CHECK ≠ 0 && !value.is_str then
    .error (.exited WRONG_OPERAND_TYPE_ERROR_CODE)
  else if check &&& VALUE_TYPE_NIL_CHECK ≠ 0 && value = .vnone then
    .error (.exited WRONG_OPERAND_TYPE_ERROR_CODE)
  else if check &&& VALUE_TYPE_NOT_NIL_CHECK ≠ 0 && value = .vnone then
    .error (.exited MISSING_VALUE_ERROR_CODE)
  else
    .ok ()

/-- values_check (lines 274-287): the SAME check compares the Python type
tags, then value_check runs on both values. -/
def values_check (value1 value2 : PyVal) (check : Nat) : Except Fault Unit :=
  if check &&& VALUE_TYPE_SAME_CHECK ≠ 0 && pyTag value1 ≠ pyTag value2 then
    .error (.exited WRONG_OPERAND_TYPE_ERROR_CODE)
  else
    match value_check value1 check with
    | .error f => .error f
    | .ok _ => value_check value2 check

/-- variable_check (lines 290-314).  The NULL check compares
variable.get_value() with the empty string, which therefore fires both for
an Unset variable (stored None resolves to "") and for a variable that
holds the empty string. -/
def variable_check (s : VMState) (frame name : String) (check : Nat) :
    Except Fault Unit :=
  match
    ((if check &&& VARIABLE_DEFINED_CHECK ≠ 0 then
      match s.mem.get_frame frame with
      | .error f => .error f
      | .ok none => .error (.crash "TypeError: argument of type NoneType is not iterable")
      | .ok (some fr) =>
          if frame_contains fr name then .ok ()
          else .error (.exited UNDEFINED_VARIABLE_ERROR_CODE)
    else .ok ()) : Except Fault Unit) with
  | .error f => .error f
  | .ok _ =>
    match
      ((if check &&& VARIABLE_NULL_CHECK ≠ 0 then
        match var_get_value s.mem frame name with
        | .error f => .error f
        | .ok v =>
            if v = .vstr "" then .error (.exited MISSING_VALUE_ERROR_CODE)
            else .ok ()
      else .ok ()) : Except Fault Unit) with
    | .error f => .error f
    | .ok _ =>
        if check &&& VARIABLE_CORRECT_FRAME_CHECK ≠ 0 then
          match s.mem.get_frame frame with
          | .error f => .error f
          | .ok none => .error (.exited NON_EXISTING_FRAME_ERROR_CODE)
          | .ok (some _) => .ok ()
        else .ok ()

/-! ## Helpers.*_args_check (lines 69-148) -/

/-- variable_args_check (lines 69-91): each argument that is a
VariableArgument is checked with its flag set; args[0] is always indexed
(IndexError on an empty list), args[1] and args[2] only behind a length
guard. -/
def variable_args_check (s : VMState) (args : List Argument)
    (check1 check2 check3 : Nat) : Except Fault Unit :=
  match argAt args 0 with
  | .error f => .error f
  | .ok a0 =>
    match
      ((if a0.is_variable then variable_check s a0.get_frame a0.get_name check1
       else .ok ()) : Except Fault Unit) with
    | .error f => .error f
    | .ok _ =>
      match
        ((match args.get? 1 with
         | some a1 =>
             if a1.is_variable then variable_check s a1.get_frame a1.get_name check2
             else .ok ()
         | none => .ok ()) : Except Fault Unit) with
      | .error f => .error f
      | .ok _ =>
          match args.get? 2 with
          | some a2 =>
              if a2.is_variable then variable_check s a2.get_frame a2.get_name check3
              else .ok ()
          | none => .ok ()

/-- variable_args_check with the default flags (lines 71-73):
check1 = CORRECT_FRAME, check2 = check3 = NULL ||| CORRECT_FRAME. -/
def variable_args_check_default (s : VMState) (args : List Argument) :
    Except Fault Unit :=
  variable_args_check s args VARIABLE_CORRECT_FRAME_CHECK
    (VARIABLE_NULL_CHECK ||| VARIABLE_CORRECT_FRAME_CHECK)
    (VARIABLE_NULL_CHECK ||| VARIABLE_CORRECT_FRAME_CHECK)

/-- math_args_check (lines 93-109). -/
def math_args_check (s : VMState) (args : List Argument) : Except Fault Unit :=
  match variable_args_check_default s args with
  | .error f => .error f
  | .ok _ =>
    match argAt args 1 with
    | .error f => .error f
    | .ok a1 =>
      match a1.get_value s with
      | .error f => .error f
      | .ok value1 =>
        match argAt args 2 with
        | .error f => .error f
        | .ok a2 =>
          match a2.get_value s with
          | .error f => .error f
          | .ok value2 =>
            match value_check value1 (VALUE_TYPE_INT_CHECK ||| VALUE_TYPE_NOT_NIL_CHECK) with
            | .error f => .error f
            | .ok _ => value_check value2 (VALUE_TYPE_INT_CHECK ||| VALUE_TYPE_NOT_NIL_CHECK)

/-- relational_args_check (lines 111-127): both operands are checked with
NIL ||| SAME, so a None operand exits 53 and differing type tags exit 53. -/
def relational_args_check (s : VMState) (args : List Argument) : Except Fault Unit :=
  match variable_args_check_default s args with
  | .error f => .error f
  | .ok _ =>
    match argAt args 1 with
    | .error f => .error f
    | .ok a1 =>
      match a1.get_value s with
      | .error f => .error f
      | .ok value1 =>
        match argAt args 2 with
        | .error f => .error f
        | .ok a2 =>
          match a2.get_value s with
          | .error f => .error f
          | .ok value2 =>
              values_check value1 value2 (VALUE_TYPE_NIL_CHECK ||| VALUE_TYPE_SAME_CHECK)

/-- logical_args_check (lines 129-148). -/
def logical_args_check (s : VMState) (args : List Argument) (is_not : Bool) :
    Except Fault Unit :=
  match variable_args_check_default s args with
  | .error f => .error f
  | .ok _ =>
    match argAt args 1 with
    | .error f => .error f
    | .ok a1 =>
      match a1.get_value s with
      | .error f => .error f
      | .ok value1 =>
        match value_check value1 (VALUE_TYPE_BOOL_CHECK ||| VALUE_TYPE_NOT_NIL_CHECK) with
        | .error f => .error f
        | .ok _ =>
            if is_not then .ok ()
            else
              match argAt args 2 with
              | .error f => .error f
              | .ok a2 =>
                match a2.get_value s with
                | .error f => .error f
                | .ok value2 =>
                    value_check value2 (VALUE_TYPE_BOOL_CHECK ||| VALUE_TYPE_NOT_NIL_CHECK)

/-! ## Instructions (lines 325-770)

Each Python instruction class becomes a function from its argument list and
the machine state to the next state.  STDIN and stdout live in the state;
sys.exit and uncaught exceptions are Except errors. -/

abbrev Exec := List Argument → VMState → Except Fault VMState

/-- MOVE (lines 342-349). -/
def MoveInstruction.execute : Exec := fun args s => do
  let _ ← variable_args_check_default s args
  let var0 ← argAt args 0
  let a1 ← argAt args 1
  let value ← a1.get_value s
  let m ← s.mem.update_variable var0.get_frame var0.get_name value
  .ok { s with mem := m }

/-- CREATEFRAME (lines 352-354). -/
def CreateFrameInstruction.execute : Exec := fun _ s =>
  .ok { s with mem := { s.mem with temporary_frame := some [] } }

/-- PUSHFRAME (lines 357-364). -/
def PushFrameInstruction.execute : Exec := fun _ s =>
  match s.mem.temporary_frame with
  | none => .error (.exited NON_EXISTING_FRAME_ERROR_CODE)
  | some tf =>
      .ok { s with mem :=
        { s.mem with frame_stack := tf :: s.mem.frame_stack, temporary_frame := none } }

/-- POPFRAME (lines 367-373). -/
def PopFrameInstruction.execute : Exec := fun _ s =>
  match s.mem.frame_stack with
  | [] => .error (.exited NON_EXISTING_FRAME_ERROR_CODE)
  | top :: rest =>
      .ok { s with mem :=
        { s.mem with frame_stack := rest, temporary_frame := some top } }

/-- DEFVAR (lines 376-381). -/
def DefVarInstruction.execute : Exec := fun args s => do
  let _ ← variable_args_check_default s args
  let var0 ← argAt args 0
  let m ← s.mem.create_variable var0.get_frame var0.get_name
  .ok { s with mem := m }

/-- CALL (lines 384-394): no argument checks; the label is resolved at
execution time (exit 52 when it has not been recorded yet), then the
current, already incremented program counter is pushed. -/
def CallInstruction.execute : Exec := fun args s => do
  let a0 ← argAt args 0
  let label ← a0.get_value s
  let order ← s.mem.get_label label
  .ok { s with mem :=
    { s.mem with call_stack := s.mem.program_counter :: s.mem.call_stack,
                 program_counter := order } }

/-- RETURN (lines 397-405). -/
def ReturnInstruction.execute : Exec := fun _ s =>
  match s.mem.call_stack with
  | [] => .error (.exited MISSING_VALUE_ERROR_CODE)
  | prev :: rest =>
      .ok { s with mem :=
        { s.mem with call_stack := rest, program_counter := prev } }

/-- PUSHS (lines 408-413): the single argument is checked with
CORRECT_FRAME ||| NULL. -/
def PushSInstruction.execute : Exec := fun args s => do
  let _ ← variable_args_check s args
    (VARIABLE_CORRECT_FRAME_CHECK ||| VARIABLE_NULL_CHECK)
    (VARIABLE_NULL_CHECK ||| VARIABLE_CORRECT_FRAME_CHECK)
    (VARIABLE_NULL_CHECK ||| VARIABLE_CORRECT_FRAME_CHECK)
  let a0 ← argAt args 0
  let value ← a0.get_value s
  .ok { s with mem := { s.mem with stack := value :: s.mem.stack } }

/-- POPS (lines 416-429). -/
def PopSInstruction.execute : Exec := fun args s => do
  let _ ← variable_args_check_default s args
  let var0 ← argAt args 0
  match s.mem.stack with
  | [] => .error (.exited MISSING_VALUE_ERROR_CODE)
  | value :: rest =>
      let m ← { s.mem with stack := rest }.update_variable
                var0.get_frame var0.get_name value
      .ok { s with mem := m }

/-- ADD (lines 432-440); math_args_check guarantees both operands are
Python ints, so the remaining patterns are unreachable. -/
def AddInstruction.execute : Exec := fun args s => do
  let _ ← math_args_check s args
  let var0 ← argAt args 0
  let a1 ← argAt args 1
  let value1 ← a1.get_value s
  let a2 ← argAt args 2
  let value2 ← a2.get_value s
  match value1, value2 with
  | .vint n1, .vint n2 =>
      let m ← s.mem.update_variable var0.get_frame var0.get_name (.vint (n1 + n2))
      .ok { s with mem := m }
  | _, _ => .error (.crash "TypeError: unsupported operand types")

/-- SUB (lines 443-451). -/
def SubInstruction.execute : Exec := fun args s => do
  let _ ← math_args_check s args
  let var0 ← argAt args 0
  let a1 ← argAt args 1
  let value1 ← a1.get_value s
  let a2 ← argAt args 2
  let value2 ← a2.get_value s
  match value1, value2 with
  | .vint n1, .vint n2 =>
      let m ← s.mem.update_variable var0.get_frame var0.get_name (.vint (n1 - n2))
      .ok { s with mem := m }
  | _, _ => .error (.crash "TypeError: unsupported operand types")

/-- MUL (lines 454-462). -/
def MulInstruction.execute : Exec := fun args s => do
  let _ ← math_args_check s args
  let var0 ← argAt args 0
  let a1 ← argAt args 1
  let value1 ← a1.get_value s
  let a2 ← argAt args 2
  let value2 ← a2.get_value s
  match value1, value2 with
  | .vint n1, .vint n2 =>
      let m ← s.mem.update_variable var0.get_frame var0.get_name (.vint (n1 * n2))
      .ok { s with mem := m }
  | _, _ => .error (.crash "TypeError: unsupported operand types")

/-- IDIV (lines 465-477): the Python // operator is floor division
(Int.fdiv); ZeroDivisionError is caught and exits 57. -/
def IDivInstruction.execute : Exec := fun args s => do
  let _ ← math_args_check s args
  let var0 ← argAt args 0
  let a1 ← argAt args 1
  let value1 ← a1.get_value s
  let a2 ← argAt args 2
  let value2 ← a2.get_value s
  match value1, value2 with
  | .vint n1, .vint n2 =>
      if n2 = 0 then .error (.exited WRONG_OPERAND_VALUE_ERROR_CODE)
      else do
        let m ← s.mem.update_variable var0.get_frame var0.get_name
                  (.vint (Int.fdiv n1 n2))
        .ok { s with mem := m }
  | _, _ => .error (.crash "TypeError: unsupported operand types")

/-- LT (lines 480-488). -/
def LTInstruction.execute : Exec := fun args s => do
  let _ ← relational_args_check s args
  let var0 ← argAt args 0
  let a1 ← argAt args 1
  let value1 ← a1.get_value s
  let a2 ← argAt args 2
  let value2 ← a2.get_value s
  let b ← pyLt value1 value2
  let m ← s.mem.update_variable var0.get_frame var0.get_name (.vbool b)
  .ok { s with mem := m }

/-- GT (lines 491-499). -/
def GTInstruction.execute : Exec := fun args s => do
  let _ ← relational_args_check s args
  let var0 ← argAt args 0
  let a1 ← argAt args 1
  let value1 ← a1.get_value s
  let a2 ← argAt args 2
  let value2 ← a2.get_value s
  let b ← pyGt value1 value2
  let m ← s.mem.update_variable var0.get_frame var0.get_name (.vbool b)
  .ok { s with mem := m }

/-- EQ (lines 502-510): the same relational_args_check runs first, so a
None operand has already exited 53 before the equality is evaluated. -/
def EQInstruction.execute : Exec := fun args s => do
  let _ ← relational_args_check s args
  let var0 ← argAt args 0
  let a1 ← argAt args 1
  let value1 ← a1.get_value s
  let a2 ← argAt args 2
  let value2 ← a2.get_value s
  let m ← s.mem.update_variable var0.get_frame var0.get_name
            (.vbool (pyEq value1 value2))
  .ok { s with mem := m }

/-- AND (lines 513-521); logical_args_check guarantees booleans. -/
def AndInstruction.execute : Exec := fun args s => do
  let _ ← logical_args_check s args false
  let var0 ← argAt args 0
  let a1 ← argAt args 1
  let value1 ← a1.get_value s
  let a2 ← argAt args 2
  let value2 ← a2.get_value s
  match value1, value2 with
  | .vbool b1, .vbool b2 =>
      let m ← s.mem.update_variable var0.get_frame var0.get_name (.vbool (b1 && b2))
      .ok { s with mem := m }
  | _, _ => .error (.crash "TypeError")

/-- OR (lines 524-532). -/
def OrInstruction.execute : Exec := fun args s => do
  let _ ← logical_args_check s args false
  let var0 ← argAt args 0
  let a1 ← argAt args 1
  let value1 ← a1.get_value s
  let a2 ← argAt args 2
  let value2 ← a2.get_value s
  match value1, value2 with
  | .vbool b1, .vbool b2 =>
      let m ← s.mem.update_variable var0.get_frame var0.get_name (.vbool (b1 || b2))
      .ok { s with mem := m }
  | _, _ => .error (.crash "TypeError")

/-- NOT (lines 535-542). -/
def NotInstruction.execute : Exec := fun args s => do
  let _ ← logical_args_check s args true
  let var0 ← argAt args 0
  let a1 ← argAt args 1
  let value ← a1.get_value s
  match value with
  | .vbool b =>
      let m ← s.mem.update_variable var0.get_frame var0.get_name (.vbool (!b))
      .ok { s with mem := m }
  | _ => .error (.crash "TypeError")

/-- INT2CHAR (lines 545-560): chr raises ValueError (exit 58) outside
[0, 0x110000) and TypeError (exit 53) on non-integers; a bool is a valid
chr argument in Python.  Lone-surrogate code points, which Python strings
can hold but Lean chars cannot, do not occur in any claim considered
here. -/
def Int2CharInstruction.execute : Exec := fun args s => do
  let _ ← variable_args_check_default s args
  let var0 ← argAt args 0
  let a1 ← argAt args 1
  let value ← a1.get_value s
  match value with
  | .vint n =>
      if 0 ≤ n ∧ n < 1114112 then do
        let m ← s.mem.update_variable var0.get_frame var0.get_name
                  (.vstr (String.mk [Char.ofNat n.toNat]))
        .ok { s with mem := m }
      else .error (.exited STRING_OPERATION_ERROR_CODE)
  | .vbool b => do
      let m ← s.mem.update_variable var0.get_frame var0.get_name
                (.vstr (String.mk [Char.ofNat (if b then 1 else 0)]))
      .ok { s with mem := m }
  | _ => .error (.exited WRONG_OPERAND_TYPE_ERROR_CODE)

/-- STRI2INT (lines 563-578). -/
def Stri2IntInstruction.execute : Exec := fun args s => do
  let _ ← variable_args_check_default s args
  let var0 ← argAt args 0
  let a1 ← argAt args 1
  let string ← a1.get_value s
  let a2 ← argAt args 2
  let index ← a2.get_value s
  let _ ← value_check string VALUE_TYPE_STRING_CHECK
  let _ ← value_check index VALUE_TYPE_INT_CHECK
  match string, index with
  | .vstr str0, .vint i =>
      if i ≥ (str0.length : Int) ∨ i < 0 then
        .error (.exited STRING_OPERATION_ERROR_CODE)
      else
        match str0.toList.get? i.toNat with
        | some c => do
            let m ← s.mem.update_variable var0.get_frame var0.get_name
                      (.vint c.toNat)
            .ok { s with mem := m }
        | none => .error (.crash "IndexError")
  | _, _ => .error (.crash "TypeError")

/-- READ (lines 581-596): input() raises EOFError on exhausted input;
int() raises ValueError on a malformed literal; neither is caught.  The
bool parse lowercases the line (ASCII lowering suffices for the inputs
considered here); any other type string stores the raw line. -/
def ReadInstruction.execute : Exec := fun args s => do
  let _ ← variable_args_check_default s args
  let var0 ← argAt args 0
  let a1 ← argAt args 1
  let var_type ← a1.get_value s
  match s.stdin with
  | [] => .error (.crash "EOFError: EOF when reading a line")
  | line :: restIn =>
      let s := { s with stdin := restIn }
      let value ← (
        if pyEq var_type (.vstr "int") then
          match pyIntParse line with
          | some n => .ok (PyVal.vint n)
          | none => .error (Fault.crash "ValueError: invalid literal for int with base 10")
        else if pyEq var_type (.vstr "bool") then
          .ok (PyVal.vbool (String.mk (line.toList.map Char.toLower) = "true"))
        else
          .ok (PyVal.vstr line) : Except Fault PyVal)
      let m ← s.mem.update_variable var0.get_frame var0.get_name value
      .ok { s with mem := m }

/-- WRITE (lines 599-602): no checks at all; every argument is resolved
and rendered by process_output onto stdout, without a newline. -/
def WriteInstruction.execute : Exec := fun args s =>
  match args with
  | [] => .ok s
  | a :: rest => do
      let v ← a.get_value s
      WriteInstruction.execute rest { s with stdout := s.stdout ++ process_output v }

/-- CONCAT (lines 605-616). -/
def ConcatInstruction.execute : Exec := fun args s => do
  let _ ← variable_args_check_default s args
  let var0 ← argAt args 0
  let a1 ← argAt args 1
  let string1 ← a1.get_value s
  let a2 ← argAt args 2
  let string2 ← a2.get_value s
  let _ ← values_check string1 string2 VALUE_TYPE_STRING_CHECK
  match string1, string2 with
  | .vstr s1, .vstr s2 =>
      let m ← s.mem.update_variable var0.get_frame var0.get_name
                (.vstr (s1 ++ s2))
      .ok { s with mem := m }
  | _, _ => .error (.crash "TypeError")

/-- STRLEN (lines 619-630). -/
def StrLenInstruction.execute : Exec := fun args s => do
  let _ ← variable_args_check_default s args
  let var0 ← argAt args 0
  let a1 ← argAt args 1
  let string ← a1.get_value s
  match string with
  | .vstr str0 =>
      let m ← s.mem.update_variable var0.get_frame var0.get_name
                (.vint str0.length)
      .ok { s with mem := m }
  | _ => .error (.exited WRONG_OPERAND_TYPE_ERROR_CODE)

/-- GETCHAR (lines 633-649). -/
def GetCharInstruction.execute : Exec := fun args s => do
  let _ ← variable_args_check_default s args
  let var0 ← argAt args 0
  let a1 ← argAt args 1
  let string ← a1.get_value s
  let a2 ← argAt args 2
  let index ← a2.get_value s
  let _ ← value_check string VALUE_TYPE_STRING_CHECK
  let _ ← value_check index VALUE_TYPE_INT_CHECK
  let _ ← values_check string index VALUE_TYPE_NIL_CHECK
  match string, index with
  | .vstr str0, .vint i =>
      if i < 0 ∨ i ≥ (str0.length : Int) then
        .error (.exited STRING_OPERATION_ERROR_CODE)
      else
        match str0.toList.get? i.toNat with
        | some c => do
            let m ← s.mem.update_variable var0.get_frame var0.get_name
                      (.vstr (String.mk [c]))
            .ok { s with mem := m }
        | none => .error (.crash "IndexError")
  | _, _ => .error (.crash "TypeError")

/-- SETCHAR (lines 652-679): reads the destination variable through
get_value, so an Unset destination resolves to "" and exits 53 at the
empty-value test. -/
def SetCharInstruction.execute : Exec := fun args s => do
  let _ ← variable_args_check_default s args
  let var0 ← argAt args 0
  let a1 ← argAt args 1
  let index ← a1.get_value s
  let a2 ← argAt args 2
  let replace_string ← a2.get_value s
  let current ← var0.get_value s
  if current = .vstr "" then .error (.exited WRONG_OPERAND_TYPE_ERROR_CODE)
  else
    match current, index, replace_string with
    | .vstr str0, .vint i, .vstr rep =>
        if i < 0 ∨ i ≥ (str0.length : Int) then
          .error (.exited STRING_OPERATION_ERROR_CODE)
        else if rep.length < 1 then
          .error (.exited STRING_OPERATION_ERROR_CODE)
        else
          match rep.toList.get? 0 with
          | some r0 => do
              let m ← s.mem.update_variable var0.get_frame var0.get_name
                        (.vstr (String.mk (str0.toList.take i.toNat ++ r0 ::
                          str0.toList.drop (i.toNat + 1))))
              .ok { s with mem := m }
          | none => .error (.crash "IndexError")
    | _, _, _ => .error (.exited WRONG_OPERAND_TYPE_ERROR_CODE)

/-- The Python type(value).__name__ mapping of TYPE (lines 689-697). -/
def pyTypeName : PyVal → String
  | .vbool _ => "bool"
  | .vint _ => "int"
  | .vstr _ => "string"
  | .vnone => "nil"

/-- TYPE (lines 682-699): variable_args_check runs with the default flags,
so the NULL check applies to a variable second argument before the type
name is ever computed. -/
def TypeInstruction.execute : Exec := fun args s => do
  let _ ← variable_args_check_default s args
  let var0 ← argAt args 0
  let a1 ← argAt args 1
  let value ← a1.get_value s
  let m ← s.mem.update_variable var0.get_frame var0.get_name
            (.vstr (pyTypeName value))
  .ok { s with mem := m }

/-- LABEL (lines 702-706): the label is recorded when the instruction is
executed, bound to the already incremented program counter. -/
def LabelInstruction.execute : Exec := fun args s => do
  let a0 ← argAt args 0
  let name ← a0.get_value s
  let m ← s.mem.create_label name s.mem.program_counter
  .ok { s with mem := m }

/-- JUMP (lines 709-714). -/
def JumpInstruction.execute : Exec := fun args s => do
  let _ ← variable_args_check_default s args
  let a0 ← argAt args 0
  let label ← a0.get_value s
  let order ← s.mem.get_label label
  .ok { s with mem := { s.mem with program_counter := order } }

/-- JUMPIFEQ (lines 717-728): only the SAME check runs, so two None
operands pass; the label is resolved only when the branch is taken. -/
def JumpIfEqInstruction.execute : Exec := fun args s => do
  let _ ← variable_args_check_default s args
  let a0 ← argAt args 0
  let label ← a0.get_value s
  let a1 ← argAt args 1
  let value1 ← a1.get_value s
  let a2 ← argAt args 2
  let value2 ← a2.get_value s
  let _ ← values_check value1 value2 VALUE_TYPE_SAME_CHECK
  if pyEq value1 value2 then do
    let order ← s.mem.get_label label
    .ok { s with mem := { s.mem with program_counter := order } }
  else .ok s

/-- JUMPIFNEQ (lines 731-742). -/
def JumpIfNeqInstruction.execute : Exec := fun args s => do
  let _ ← variable_args_check_default s args
  let a0 ← argAt args 0
  let label ← a0.get_value s
  let a1 ← argAt args 1
  let value1 ← a1.get_value s
  let a2 ← argAt args 2
  let value2 ← a2.get_value s
  let _ ← values_check value1 value2 VALUE_TYPE_SAME_CHECK
  if ¬ pyEq value1 value2 then do
    let order ← s.mem.get_label label
    .ok { s with mem := { s.mem with program_counter := order } }
  else .ok s

/-- EXIT (lines 745-757). -/
def ExitInstruction.execute : Exec := fun args s => do
  let _ ← variable_args_check s args
    (VARIABLE_CORRECT_FRAME_CHECK ||| VARIABLE_NULL_CHECK)
    (VARIABLE_NULL_CHECK ||| VARIABLE_CORRECT_FRAME_CHECK)
    (VARIABLE_NULL_CHECK ||| VARIABLE_CORRECT_FRAME_CHECK)
  let a0 ← argAt args 0
  let code ← a0.get_value s
  let _ ← value_check code VALUE_TYPE_INT_CHECK
  match code with
  | .vint n =>
      if n < 0 ∨ n > 49 then .error (.exited WRONG_OPERAND_VALUE_ERROR_CODE)
      else .error (.exited n.toNat)
  | _ => .error (.crash "TypeError")

/-- DPRINT (lines 760-764): resolves its argument (all its faults apply)
and writes to standard error, which is not tracked. -/
def DPrintInstruction.execute : Exec := fun args s => do
  let _ ← variable_args_check_default s args
  let a0 ← argAt args 0
  let _ ← a0.get_value s
  .ok s

/-- BREAK (lines 767-770): a no-op. -/
def BreakInstruction.execute : Exec := fun _ s => .ok s

/-! ## XML source model and the driver (lines 931-1056)

An instruction element carries its tag name, the optional opcode and order
attributes, and its child elements; an argument element carries its tag
name, the optional type attribute and its (possibly absent) text. -/

structure ArgTag where
  tag : String
  type? : Option String
  text? : Option String
deriving DecidableEq, Repr

structure InstrTag where
  tag : String
  opcode? : Option String
  order? : Option String
  argTags : List ArgTag
deriving DecidableEq, Repr

/-- ARGUMENT_TYPE_MAP membership (lines 971-979). -/
def argumentTypeKnown (ty : String) : Bool :=
  ty = "int" || ty = "bool" || ty = "string" || ty = "nil" ||
  ty = "label" || ty = "type" || ty = "var"

/-- Split a variable literal at the first at sign, as
value.split(sep, 1) does; no separator raises ValueError in the
VariableArgument constructor (line 225). -/
def splitAtAux : List Char -> Option (List Char × List Char)
  | [] => none
  | '@' :: rest => some ([], rest)
  | c :: rest =>
      match splitAtAux rest with
      | some (l, r) => some (c :: l, r)
      | none => none

/-- Construct the Argument subclass chosen by ARGUMENT_TYPE_MAP
(lines 971-979, 1050-1051). -/
def buildArgument (ty value : String) : Except Fault Argument :=
  if ty = "int" then .ok (.intArg value)
  else if ty = "bool" then .ok (.boolArg value)
  else if ty = "string" then .ok (.strArg value)
  else if ty = "nil" then .ok (.nilArg value)
  else if ty = "label" then .ok (.labelArg value)
  else if ty = "type" then .ok (.typeArg value)
  else if ty = "var" then
    match splitAtAux value.toList with
    | some (l, r) => .ok (.varArg (String.mk l) (String.mk r))
    | none => .error (.crash "ValueError: not enough values to unpack")
  else .error (.crash "Exception: Unknown argument type")

/-- INSTRUCTION_MAP (lines 932-968): exact, case-sensitive opcode keys. -/
def INSTRUCTION_MAP (opcode : String) : Option Exec :=
  if opcode = "MOVE" then some MoveInstruction.execute
  else if opcode = "CREATEFRAME" then some CreateFrameInstruction.execute
  else if opcode = "PUSHFRAME" then some PushFrameInstruction.execute
  else if opcode = "POPFRAME" then some PopFrameInstruction.execute
  else if opcode = "DEFVAR" then some DefVarInstruction.execute
  else if opcode = "CALL" then some CallInstruction.execute
  else if opcode = "RETURN" then some ReturnInstruction.execute
  else if opcode = "PUSHS" then some PushSInstruction.execute
  else if opcode = "POPS" then some PopSInstruction.execute
  else if opcode = "ADD" then some AddInstruction.execute
  else if opcode = "SUB" then some SubInstruction.execute
  else if opcode = "MUL" then some MulInstruction.execute
  else if opcode = "IDIV" then some IDivInstruction.execute
  else if opcode = "LT" then some LTInstruction.execute
  else if opcode = "GT" then some GTInstruction.execute
  else if opcode = "EQ" then some EQInstruction.execute
  else if opcode = "AND" then some AndInstruction.execute
  else if opcode = "OR" then some OrInstruction.execute
  else if opcode = "NOT" then some NotInstruction.execute
  else if opcode = "INT2CHAR" then some Int2CharInstruction.execute
  else if opcode = "STRI2INT" then some Stri2IntInstruction.execute
  else if opcode = "READ" then some ReadInstruction.execute
  else if opcode = "WRITE" then some WriteInstruction.execute
  else if opcode = "CONCAT" then some ConcatInstruction.execute
  else if opcode = "STRLEN" then some StrLenInstruction.execute
  else if opcode = "GETCHAR" then some GetCharInstruction.execute
  else if opcode = "SETCHAR" then some SetCharInstruction.execute
  else if opcode = "TYPE" then some TypeInstruction.execute
  else if opcode = "LABEL" then some LabelInstruction.execute
  else if opcode = "JUMP" then some JumpInstruction.execute
  else if opcode = "JUMPIFEQ" then some JumpIfEqInstruction.execute
  else if opcode = "JUMPIFNEQ" then some JumpIfNeqInstruction.execute
  else if opcode = "EXIT" then some ExitInstruction.execute
  else if opcode = "DPRINT" then some DPrintInstruction.execute
  else if opcode = "BREAK" then some BreakInstruction.execute
  else none

/-- checkXML inner loop (lines 996-1011): every child must be an
instruction element whose order parses as an int in [0, number of
children] and is not below the previous order.  n is len(children). -/
def checkXMLLoop (n : Int) : List InstrTag -> Int -> Except Fault Unit
  | [], _ => .ok ()
  | child :: rest, order_counter =>
      if child.tag ≠ "instruction" then .error (.exited WRONG_XML_STRUCTURE_ERROR_CODE)
      else
        match pyIntOfAttr child.order? with
        | none => .error (.exited WRONG_XML_STRUCTURE_ERROR_CODE)
        | some order =>
            if order < 0 ∨ order > n ∨ order < order_counter then
              .error (.exited WRONG_XML_STRUCTURE_ERROR_CODE)
            else checkXMLLoop n rest order

/-- checkXML (lines 982-1011): the bare except around
int(children[0].get("order")) also catches the IndexError of an empty
child list; there is no reordering of the children anywhere. -/
def checkXML (children : List InstrTag) : Except Fault Unit :=
  match children with
  | [] => .error (.exited WRONG_XML_STRUCTURE_ERROR_CODE)
  | c0 :: _ =>
      match pyIntOfAttr c0.order? with
      | none => .error (.exited WRONG_XML_STRUCTURE_ERROR_CODE)
      | some order_counter => checkXMLLoop (children.length : Int) children order_counter

/-- str.startswith, written structurally over the character lists. -/
def pyStartswith (s : String) (pre : String) : Bool :=
  pre.toList.isPrefixOf s.toList

/-- Argument decoding inside processXML (lines 1039-1052): child tags must
start with "arg", the type attribute must be a known key, and the element
text defaults to the empty string. -/
def decodeArgTags : List ArgTag -> Except Fault (List Argument)
  | [] => .ok []
  | a :: rest =>
      if ¬ pyStartswith a.tag "arg" then .error (.crash "Exception: Unknown tag")
      else
        match a.type? with
        | none => .error (.crash "Exception: Unknown argument type")
        | some ty =>
            if argumentTypeKnown ty then
              match buildArgument ty (match a.text? with | some t => t | none => "") with
              | .error f => .error f
              | .ok arg =>
                  match decodeArgTags rest with
                  | .error f => .error f
                  | .ok rest2 => .ok (arg :: rest2)
            else .error (.crash "Exception: Unknown argument type")

/-- One iteration of the processXML while loop (lines 1024-1056), to be
run when the program counter is below len(children): fetch, increment the
program counter, reject non-instruction tags and unknown opcodes by
raising (uncaught), decode the arguments and execute. -/
def execStep (children : List InstrTag) (s : VMState) : Except Fault VMState :=
  match children.get? s.mem.program_counter with
  | none => .error (.crash "IndexError: list index out of range")
  | some instruction_tag =>
      let s := { s with mem :=
        { s.mem with program_counter := s.mem.program_counter + 1 } }
      if instruction_tag.tag ≠ "instruction" then
        .error (.crash "Exception: Unknown tag")
      else
        match instruction_tag.opcode? with
        | none => .error (.crash "Exception: Unknown opcode (None)")
        | some opcode =>
            match INSTRUCTION_MAP opcode with
            | none => .error (.crash ("Exception: Unknown opcode (" ++ opcode ++ ")"))
            | some exec =>
                match decodeArgTags instruction_tag.argTags with
                | .error f => .error f
                | .ok arguments => exec arguments s

/-- The processXML while loop (lines 1014-1056), with explicit fuel; none
means the fuel ran out before the loop ended. -/
def processXML : Nat -> List InstrTag -> VMState -> Option (Except Fault VMState)
  | 0, _, _ => none
  | fuel + 1, children, s =>
      if s.mem.program_counter < children.length then
        match execStep children s with
        | .error f => some (.error f)
        | .ok s2 => processXML fuel children s2
      else some (.ok s)

/-- main (lines 1086-1116) after XML parsing: checkXML, then processXML on
the initial machine state; falling out of the loop is a normal process
exit with status 0. -/
def interpretProgram (fuel : Nat) (children : List InstrTag) (stdin : List String) :
    Option (Except Fault VMState) :=
  match checkXML children with
  | .error f => some (.error f)
  | .ok _ => processXML fuel children (initState stdin)

/-! ## Observations: process exit status and standard output -/

/-- The process exit code: 0 on normal termination, the sys.exit code on a
fault; none when the run crashed with an uncaught exception (the Python
process then dies with a traceback, not a VM exit code) or when the fuel
ran out. -/
def runExitCode : Option (Except Fault VMState) -> Option Nat
  | some (.ok _) => some 0
  | some (.error (.exited n)) => some n
  | some (.error (.crash _)) => none
  | none => none

/-- The bytes on standard output after a normal termination. -/
def runStdout : Option (Except Fault VMState) -> Option String
  | some (.ok s) => some s.stdout
  | _ => none

/-- Whether the run died with an uncaught Python exception. -/
def runCrashed : Option (Except Fault VMState) -> Bool
  | some (.error (.crash _)) => true
  | _ => false

/-- The value of a global variable after a normal termination. -/
def runGlobal (r : Option (Except Fault VMState)) (name : String) : Option PyVal :=
  match r with
  | some (.ok s) => frame_lookup s.mem.global_frame name
  | _ => none

/-! ## Concrete claim programs

Builders for XML instruction elements.  The interpreter only requires an
argument tag to start with "arg", so a uniform tag name is used. -/

def aVar (v : String) : ArgTag := ⟨"arg1", some "var", some v⟩

def aLabel (v : String) : ArgTag := ⟨"arg1", some "label", some v⟩

def aNil : ArgTag := ⟨"arg1", some "nil", some "nil"⟩

def aType (v : String) : ArgTag := ⟨"arg1", some "type", some v⟩

def aInt (v : String) : ArgTag := ⟨"arg1", some "int", some v⟩

def inst (op ord : String) (as : List ArgTag) : InstrTag :=
  ⟨"instruction", some op, some ord, as⟩

/-- DEFVAR GF@x; WRITE GF@x (spec scenario 3). -/
def progC1 : List InstrTag :=
  [inst "DEFVAR" "1" [aVar "GF@x"], inst "WRITE" "2" [aVar "GF@x"]]

/-- JUMP l; LABEL l: a forward jump to a label defined later. -/
def progC2 : List InstrTag :=
  [inst "JUMP" "1" [aLabel "l"], inst "LABEL" "2" [aLabel "l"]]

/-- DEFVAR GF@a; DEFVAR GF@b; TYPE GF@a, GF@b with GF@b never assigned. -/
def progC3 : List InstrTag :=
  [inst "DEFVAR" "1" [aVar "GF@a"], inst "DEFVAR" "2" [aVar "GF@b"],
   inst "TYPE" "3" [aVar "GF@a", aVar "GF@b"]]

/-- DEFVAR GF@a; EQ GF@a, nil, nil. -/
def progC4 : List InstrTag :=
  [inst "DEFVAR" "1" [aVar "GF@a"], inst "EQ" "2" [aVar "GF@a", aNil, aNil]]

/-- DEFVAR GF@a; READ GF@a, int. -/
def progC5 : List InstrTag :=
  [inst "DEFVAR" "1" [aVar "GF@a"], inst "READ" "2" [aVar "GF@a", aType "int"]]

/-- WRITE nil (the nil literal). -/
def progC6 : List InstrTag := [inst "WRITE" "1" [aNil]]

/-- A single MOVE instruction whose opcode is written in lower case. -/
def progC7 : List InstrTag :=
  [inst "move" "1" [aVar "GF@x", aInt "1"]]

/-- A single instruction with an opcode outside the instruction set. -/
def progC7b : List InstrTag :=
  [inst "FOO" "1" [aVar "GF@x"]]

/-- A two-instruction program with order attributes 10 and 20. -/
def progC8 : List InstrTag :=
  [inst "DEFVAR" "10" [aVar "GF@x"], inst "WRITE" "20" [aVar "GF@x"]]

/-- A one-instruction program with order attribute 0. -/
def progC8zero : List InstrTag := [inst "BREAK" "0" []]

/-- DEFVAR GF@r; ADD GF@r, 9223372036854775807, 1; WRITE GF@r: the operands
are 64-bit-representable, the sum is not. -/
def progC9 : List InstrTag :=
  [inst "DEFVAR" "1" [aVar "GF@r"],
   inst "ADD" "2" [aVar "GF@r", aInt "9223372036854775807", aInt "1"],
   inst "WRITE" "3" [aVar "GF@r"]]

/-! ## Machine states used in the symbolic theorems -/

/-- A machine state whose global frame is g, with everything else in its
initial configuration. -/
def vmOf (g : Frame) : VMState :=
  { mem := { initMemory with global_frame := g }, stdin := [], stdout := "" }

/-- State for the arithmetic claims: GF@x = a, GF@y = b, GF@r defined but
unset. -/
def vm9 (a b : Int) : VMState :=
  vmOf [("x", .vint a), ("y", .vint b), ("r", .vnone)]

/-- The same state after the destination GF@r received v. -/
def vm9post (a b : Int) (v : PyVal) : VMState :=
  vmOf [("x", .vint a), ("y", .vint b), ("r", v)]

/-- Argument vector dst = GF@r, operands GF@x and GF@y. -/
def mathArgs : List Argument :=
  [.varArg "GF" "r", .varArg "GF" "x", .varArg "GF" "y"]

/-! ## Claim theorems -/

/-- Claim C1, counterexample: the claim says resolving a DEFVARed but never
assigned variable as a symbol argument of any instruction exits 56, and in
particular that WRITE of such a variable produces no stdout bytes and exits
56.  On the program DEFVAR GF@x; WRITE GF@x the interpreter instead writes
no bytes and terminates normally with exit code 0: WriteInstruction performs
no variable checks and VariableArgument.get_value silently turns the stored
None into the empty string. -/
theorem claim_C1_counterexample :
    runExitCode (interpretProgram 10 progC1 []) = some 0 ∧
    runStdout (interpretProgram 10 progC1 []) = some "" ∧
    ¬ runExitCode (interpretProgram 10 progC1 []) = some MISSING_VALUE_ERROR_CODE :=
  ⟨rfl, rfl, by decide⟩

/-- Claim C1, amended: resolving a DEFVARed but never assigned variable as a
source operand of an instruction that runs the default variable checks
(MOVE, ADD and the other checked instructions, and PUSHS on its single
operand) exits 56, for every surrounding global-frame content; WRITE runs no
check, resolves the unset variable to the empty string, writes no bytes to
stdout and does not fault. -/
theorem claim_C1_amended (g : Frame) :
    MoveInstruction.execute [.varArg "GF" "d", .varArg "GF" "x"]
      (vmOf (("x", .vnone) :: g)) = .error (.exited MISSING_VALUE_ERROR_CODE) ∧
    AddInstruction.execute [.varArg "GF" "d", .varArg "GF" "x", .intArg "1"]
      (vmOf (("x", .vnone) :: g)) = .error (.exited MISSING_VALUE_ERROR_CODE) ∧
    PushSInstruction.execute [.varArg "GF" "x"]
      (vmOf (("x", .vnone) :: g)) = .error (.exited MISSING_VALUE_ERROR_CODE) ∧
    WriteInstruction.execute [.varArg "GF" "x"]
      (vmOf (("x", .vnone) :: g)) = .ok { vmOf (("x", .vnone) :: g) with stdout := "" } :=
  ⟨rfl, rfl, rfl, rfl⟩

/-- Claim C1, witness: the amended statement applied to the singleton global
frame in which GF@x is the only, unset, variable. -/
theorem claim_C1_witness :
    MoveInstruction.execute [.varArg "GF" "d", .varArg "GF" "x"]
      (vmOf [("x", .vnone)]) = .error (.exited MISSING_VALUE_ERROR_CODE) ∧
    WriteInstruction.execute [.varArg "GF" "x"]
      (vmOf [("x", .vnone)]) = .ok { vmOf [("x", .vnone)] with stdout := "" } :=
  ⟨(claim_C1_amended []).1, (claim_C1_amended []).2.2.2⟩

/-- Claim C2, code bug: the claim (and the spec) require a pre-pass that
records every LABEL before execution, so that a forward JUMP succeeds.  The
interpreter has no pre-pass: labels are recorded only when a LABEL
instruction executes, so the program JUMP l; LABEL l exits 52 (undefined
label) at the JUMP. -/
theorem claim_C2_bug :
    runExitCode (interpretProgram 10 progC2 []) = some SEMANTIC_ERROR_CODE ∧
    ¬ runExitCode (interpretProgram 10 progC2 []) = some 0 :=
  ⟨rfl, by decide⟩

/-- Claim C3, code bug: the claim (and the spec) say TYPE of an Unset
variable stores the empty string and never faults on an Unset operand.  The
interpreter runs the default variable checks first, and the NULL check turns
the Unset operand into exit 56: DEFVAR GF@a; DEFVAR GF@b; TYPE GF@a, GF@b
terminates with 56 instead of storing "". -/
theorem claim_C3_bug :
    runExitCode (interpretProgram 10 progC3 []) = some MISSING_VALUE_ERROR_CODE :=
  rfl

/-- Claim C4, code bug: the claim (and the spec) say EQ tolerates Nil
operands and stores true for nil = nil.  relational_args_check applies
VALUE_TYPE_NIL_CHECK to both operands, so any None operand exits 53: DEFVAR
GF@a; EQ GF@a, nil, nil terminates with 53. -/
theorem claim_C4_bug :
    runExitCode (interpretProgram 10 progC4 []) = some WRONG_OPERAND_TYPE_ERROR_CODE :=
  rfl

/-- Claim C5, code bug: the claim (and the spec) say READ never faults and
stores Nil on unreadable or malformed input.  The interpreter calls input()
and int() without any exception handling: on the input line abc with type
int the uncaught ValueError kills the process, and on exhausted input the
uncaught EOFError does; neither run reaches any exit code. -/
theorem claim_C5_bug :
    runCrashed (interpretProgram 10 progC5 ["abc"]) = true ∧
    runCrashed (interpretProgram 10 progC5 []) = true ∧
    runExitCode (interpretProgram 10 progC5 ["abc"]) = none ∧
    runExitCode (interpretProgram 10 progC5 []) = none :=
  ⟨rfl, rfl, rfl, rfl⟩

/-- Claim C6, code bug: the claim (and the spec) say WRITE of a symbol
resolving to Nil writes the empty string.  process_output tests
type(arg) is None, which is always False, so the nil literal falls through
to str(None) and WRITE nil prints the four characters None and terminates
normally. -/
theorem claim_C6_bug :
    runStdout (interpretProgram 10 progC6 []) = some "None" ∧
    runExitCode (interpretProgram 10 progC6 []) = some 0 ∧
    ¬ runStdout (interpretProgram 10 progC6 []) = some "" :=
  ⟨rfl, rfl, by decide⟩

/-- Claim C7, code bug: the claim (and the spec) say an unknown opcode is a
structural fault with exit 32 and that opcode matching is case-insensitive.
processXML looks the opcode up case-sensitively in INSTRUCTION_MAP and
raises an uncaught Exception on a miss, so both the lower-case known opcode
move and the unknown opcode FOO crash the process with a traceback instead
of exiting 32. -/
theorem claim_C7_bug :
    runCrashed (interpretProgram 10 progC7 []) = true ∧
    runExitCode (interpretProgram 10 progC7 []) = none ∧
    runCrashed (interpretProgram 10 progC7b []) = true ∧
    runExitCode (interpretProgram 10 progC7b []) = none :=
  ⟨rfl, rfl, rfl, rfl⟩

/-- Claim C8, code bug: the claim (and the spec) say order values with gaps
are accepted, instructions are reordered ascending by order, and
non-positive order is a structural fault.  checkXML instead requires every
order to lie in [0, number of instructions] and be non-decreasing, so the
claimed example (orders 10 and 20 for a two-instruction program) exits 32,
while order 0 is accepted; no reordering exists anywhere, execution is in
document order. -/
theorem claim_C8_bug :
    runExitCode (interpretProgram 10 progC8 []) = some WRONG_XML_STRUCTURE_ERROR_CODE ∧
    checkXML progC8zero = .ok () :=
  ⟨rfl, rfl⟩

/-- Claim C9, counterexample: the claim says ADD computes 64-bit signed
integer arithmetic.  ADD of the int literals 9223372036854775807 (the
largest 64-bit signed value) and 1 stores and prints 9223372036854775808,
which exceeds every 64-bit signed value: Python integers are unbounded and
nothing reduces them modulo 2 to the 64. -/
theorem claim_C9_counterexample :
    runStdout (interpretProgram 10 progC9 []) = some "9223372036854775808" ∧
    runGlobal (interpretProgram 10 progC9 []) "r" = some (.vint 9223372036854775808) ∧
    ¬ (9223372036854775808 : Int) ≤ 9223372036854775807 :=
  ⟨rfl, rfl, by decide⟩

/-- Claim C9, amended: for all Int operands a and b, ADD, SUB and MUL store
the exact, arbitrary-precision sum, difference and product (agreeing with
64-bit arithmetic only when no overflow occurs), IDIV with b different from
0 stores the floor quotient, and IDIV with divisor 0 exits 57. -/
theorem claim_C9_amended (a b : Int) :
    AddInstruction.execute mathArgs (vm9 a b) = .ok (vm9post a b (.vint (a + b))) ∧
    SubInstruction.execute mathArgs (vm9 a b) = .ok (vm9post a b (.vint (a - b))) ∧
    MulInstruction.execute mathArgs (vm9 a b) = .ok (vm9post a b (.vint (a * b))) ∧
    (b ≠ 0 →
      IDivInstruction.execute mathArgs (vm9 a b) = .ok (vm9post a b (.vint (Int.fdiv a b)))) ∧
    IDivInstruction.execute mathArgs (vm9 a 0) = .error (.exited WRONG_OPERAND_VALUE_ERROR_CODE) := by
  refine ⟨rfl, rfl, rfl, ?_, rfl⟩
  intro hb
  match b, hb with
  | Int.ofNat (n + 1), _ => rfl
  | Int.negSucc n, _ => rfl
  | Int.ofNat 0, hb => exact absurd rfl hb

/-- Claim C9, witness: the amended statement at the concrete operands -7
and 2; the floor quotient is -4, pinning floor (not truncating)
division. -/
theorem claim_C9_witness :
    IDivInstruction.execute mathArgs (vm9 (-7) 2) = .ok (vm9post (-7) 2 (.vint (Int.fdiv (-7) 2))) ∧
    Int.fdiv (-7) 2 = -4 :=
  ⟨(claim_C9_amended (-7) 2).2.2.2.1 (by decide), by decide⟩

/-- Claim C10, confirmed: under the default source-operand checks, a
variable holding the empty string is indistinguishable from a missing
value: VariableArgument.get_value returns the empty string both for a
stored empty string and for a stored None (Unset or nil), the NULL variable
check exits 56 on both, and consequently MOVE from such a variable exits 56
even though the empty string is a legal Str value, for every surrounding
global-frame content. -/
theorem claim_C10_confirmed (g : Frame) :
    Argument.get_value (vmOf (("x", .vstr "") :: g)) (.varArg "GF" "x") = .ok (.vstr "") ∧
    Argument.get_value (vmOf (("x", .vnone) :: g)) (.varArg "GF" "x") = .ok (.vstr "") ∧
    variable_check (vmOf (("x", .vstr "") :: g)) "GF" "x"
      (VARIABLE_NULL_CHECK ||| VARIABLE_CORRECT_FRAME_CHECK) =
        .error (.exited MISSING_VALUE_ERROR_CODE) ∧
    variable_check (vmOf (("x", .vnone) :: g)) "GF" "x"
      (VARIABLE_NULL_CHECK ||| VARIABLE_CORRECT_FRAME_CHECK) =
        .error (.exited MISSING_VALUE_ERROR_CODE) ∧
    MoveInstruction.execute [.varArg "GF" "d", .varArg "GF" "x"]
      (vmOf (("x", .vstr "") :: g)) = .error (.exited MISSING_VALUE_ERROR_CODE) ∧
    MoveInstruction.execute [.varArg "GF" "d", .varArg "GF" "x"]
      (vmOf (("x", .vnone) :: g)) = .error (.exited MISSING_VALUE_ERROR_CODE) :=
  ⟨rfl, rfl, rfl, rfl, rfl, rfl⟩

/-- Claim C10, witness: the confirmed statement applied to the singleton
global frame in which GF@x holds the empty string. -/
theorem claim_C10_witness :
    MoveInstruction.execute [.varArg "GF" "d", .varArg "GF" "x"]
      (vmOf [("x", .vstr "")]) = .error (.exited MISSING_VALUE_ERROR_CODE) :=
  (claim_C10_confirmed []).2.2.2.2.1

end Interp
